import Mathlib

/-!
Verification of the XMODEM/YMODEM protocol engine of azurity/xmodem-go
(file `port.go`).

The Go source is shallowly embedded: pure helpers (`checksum`, `crc16`,
frame assembly, config normalization) become Lean functions on `Nat` byte
values; the stateful send/receive loops become functions from the finite
list of bytes available on the transport to the structured outcome
(result, bytes written back, bytes forwarded to the terminal, remaining
input).  Machine integers are modelled as `Nat`/`Int` with explicit
`% 256` / `% 65536` where the Go code relies on wrapping.  Blocking reads
from an exhausted modelled stream are reported as `GoErr.readErr`
(standing for the transport error a blocked `Read` would eventually
surface).
-/

namespace XModemGo

/-! ## Control bytes (Go `const` block, port.go lines 156-166) -/

def charSOH : Nat := 0x01
def charSTX : Nat := 0x02
def charEOT : Nat := 0x04
def charACK : Nat := 0x06
def charNAK : Nat := 0x15
def charCAN : Nat := 0x18
def charSUB : Nat := 0x1A
def charCRC : Nat := 0x43
def charG : Nat := 0x47

/-! ## Frame codec (port.go `checksum` lines 168-174, `crc16` lines 176-189) -/

/-- Go `checksum`: 8-bit wrapping sum of the payload, one byte. -/
def checksum (data : List Nat) : List Nat :=
  [data.foldl (fun s b => (s + b) % 256) 0]

/-- One shift step of the CRC-16 inner loop:
`if crc&0x8000 != 0 { crc = (crc << 1) ^ 0x1021 } else { crc = crc << 1 }`,
truncated to 16 bits as the Go `uint16` does. -/
def crcStep (crc : Nat) : Nat :=
  if crc &&& 0x8000 ≠ 0 then ((crc <<< 1) ^^^ 0x1021) % 65536
  else (crc <<< 1) % 65536

/-- Folding one input byte into the CRC state:
`crc = crc ^ (uint16(i) << 8)` followed by eight `crcStep`s. -/
def crcByte (crc b : Nat) : Nat :=
  (List.range 8).foldl (fun c _ => crcStep c) ((crc ^^^ ((b % 256) <<< 8)) % 65536)

/-- Go `crc16`: CRC-16/XMODEM, initial value 0, emitted high byte first. -/
def crc16 (data : List Nat) : List Nat :=
  let crc := data.foldl crcByte 0
  [crc >>> 8, crc &&& 0xff]

/-! ## Configuration (port.go lines 14-62) -/

inductive modemMode where
  | XModem
  | YModem
deriving DecidableEq, Repr

/-- Feature bits `ModemFn1k .. ModemFnG` (Go `1 << iota`). -/
def ModemFn1k : Nat := 1
def ModemFnCRC : Nat := 2
def ModemFnCANCAN : Nat := 4
def ModemFnBatch : Nat := 8
def ModemFnG : Nat := 16
def ModemXMin : Nat := 0
def ModemXMax : Nat := ModemXMin ||| ModemFn1k ||| ModemFnCRC ||| ModemFnCANCAN
def ModemYMin : Nat := ModemXMax ||| ModemFnBatch
def ModemYMax : Nat := ModemYMin ||| ModemFnG

structure ModemConfig where
  mode : modemMode
  fn : Nat
deriving DecidableEq, Repr

/-- Go `XModemConfig`: `fn: (fn & ModemXMax) | ModemXMin`. -/
def XModemConfig (fn : Nat) : ModemConfig :=
  ⟨modemMode.XModem, (fn &&& ModemXMax) ||| ModemXMin⟩

/-- Go `YModemConfig`: `fn: (fn & ModemYMax) | ModemYMin`. -/
def YModemConfig (fn : Nat) : ModemConfig :=
  ⟨modemMode.YModem, (fn &&& ModemYMax) ||| ModemYMin⟩

/-! ## Errors (port.go lines 16-23, plus the transport-read failure) -/

inductive GoErr where
  | eof              -- io.EOF
  | wrongModemType
  | tooLongFileInfo
  | nakTenTimes
  | fileTooLong
  | gModeWithWrong
  | ioCan
  | parseErr         -- the error returned by bytes.Buffer.ReadBytes at end of buffer
  | readErr          -- a transport read that can never be satisfied
deriving DecidableEq, Repr

/-! ## Sender: frame assembly (port.go `sendPack` lines 208-218) -/

/-- The byte string built by `sendPack` before its transmit/reply loop:
`append([]byte{header, index, index ^ 0xff}, data...)` followed by the
CRC-16 trailer in `C`/`G` mode and the checksum trailer otherwise. -/
def sendPackFrame (index : Nat) (data : List Nat) (mode : Nat) : List Nat :=
  [if data.length = 1024 then charSTX else charSOH, index, index ^^^ 0xff] ++
    data ++
    (if mode = charCRC ∨ mode = charG then crc16 data else checksum data)

/-! ## Sender: transmit/reply loop (port.go `sendPack` lines 219-250) -/

structure SendLoopOut where
  err : Option GoErr   -- `none` when the loop ends in success (ACK, or G mode)
  frames : Nat         -- number of times the frame was written to the transport
  term : List Nat      -- bytes forwarded to the terminal reader
  rest : List Nat      -- replies left unconsumed
deriving DecidableEq, Repr

/-- The reply loop of `sendPack`, over the list of reply bytes the peer
will produce.  `count` is the NAK counter, `can` the consecutive-CAN
counter (both 0 at the call site). -/
def sendPackLoop (mode : Nat) : List Nat → Nat → Nat → SendLoopOut
  | [], _, _ =>
    if mode = charG then ⟨none, 1, [], []⟩ else ⟨some GoErr.readErr, 1, [], []⟩
  | r :: rest, count, can =>
    if mode = charG then ⟨none, 1, [], r :: rest⟩
    else if r = charCAN then
      if can + 1 ≥ 2 then ⟨some GoErr.ioCan, 1, [], rest⟩
      else
        let o := sendPackLoop mode rest count (can + 1)
        ⟨o.err, o.frames + 1, o.term, o.rest⟩
    else if r = charACK then ⟨none, 1, [], rest⟩
    else if r = charNAK then
      if count + 1 ≥ 10 then ⟨some GoErr.nakTenTimes, 1, [], rest⟩
      else
        let o := sendPackLoop mode rest (count + 1) 0
        ⟨o.err, o.frames + 1, o.term, o.rest⟩
    else
      let o := sendPackLoop mode rest count 0
      ⟨o.err, o.frames + 1, r :: o.term, o.rest⟩

/-! ## Break handling (port.go `SendBreak` 285-292, `SendBytes` 294-306,
`SendList` 324-336) -/

/-- Bytes `SendBreak` puts on the wire: `CAN CAN` when `ModemFnCANCAN` is
set, otherwise the first `EOT` of `sendEOT`. -/
def sendBreakWire (fn : Nat) : List Nat :=
  if fn &&& ModemFnCANCAN ≠ 0 then [charCAN, charCAN] else [charEOT]

/-- The condition under which `SendBytes` calls `SendBreak`:
`err != nil && err != io.EOF && err != TooLongFileInfo && err != IOCan`. -/
def sendBytesBreakCondition (e : Option GoErr) : Bool :=
  match e with
  | none => false
  | some e =>
    decide (e ≠ GoErr.eof ∧ e ≠ GoErr.tooLongFileInfo ∧ e ≠ GoErr.ioCan)

/-- The condition under which `SendList` calls `SendBreak`:
`err != nil && err != io.EOF && err != TooLongFileInfo`. -/
def sendListBreakCondition (e : Option GoErr) : Bool :=
  match e with
  | none => false
  | some e => decide (e ≠ GoErr.eof ∧ e ≠ GoErr.tooLongFileInfo)

/-! ## Sender: body transmission (port.go `sendBuffer` lines 392-430) -/

/-- `buf := make([]byte, 128)`, or 1024 with `ModemFn1k`. -/
def packSize (oneK : Bool) : Nat := if oneK then 1024 else 128

inductive SendEvent where
  | pack (index : Nat) (payload : List Nat)
  | eot
deriving DecidableEq, Repr

/-- `sendBuffer`, abstracted over a peer that acknowledges every frame:
the sequence of data packets and the final `EOT` emitted for the given
source bytes.  `io.ReadAtLeast` on the modelled source returns
`min (packSize) file.length` bytes, with `io.EOF` exactly when it
returns 0 bytes and `io.ErrUnexpectedEOF` when it returns fewer than
requested. -/
def sendBufferGo (oneK : Bool) (maxsize : Int) :
    List Nat → Int → Nat → Except GoErr (List SendEvent)
  | [], _, _ => Except.ok [SendEvent.eot]
  | b :: rest, total, index =>
    let file := b :: rest
    let ps := packSize oneK
    let n := min ps file.length
    let total' := total + n
    if maxsize > 0 ∧ total' > maxsize then Except.error GoErr.fileTooLong
    else if n < ps then
      let size := if n ≤ 128 then 128 else ps
      Except.ok [SendEvent.pack (index % 256)
          (file.take n ++ List.replicate (size - n) charSUB),
        SendEvent.eot]
    else
      match sendBufferGo oneK maxsize (file.drop ps) total' (index + 1) with
      | Except.error e => Except.error e
      | Except.ok evs =>
        Except.ok (SendEvent.pack (index % 256) (file.take ps) :: evs)
termination_by file _ _ => file.length
decreasing_by
  simp only [List.length_drop, List.length_cons, packSize]
  cases oneK <;> simp <;> omega

/-! ## Sender: handshake wait (port.go `waitWorkMode` lines 191-206) -/

/-- `waitWorkMode` over the inbound byte list: the first byte equal to
`NAK`, or to `C` with CRC enabled, or to `G` with G enabled, is the work
mode; all earlier bytes are forwarded to the terminal.  `none` when the
stream ends first. -/
def waitWorkMode (fn : Nat) : List Nat → Option (Nat × List Nat × List Nat)
  | [] => none
  | b :: rest =>
    if b = charNAK ∨ (fn &&& ModemFnCRC ≠ 0 ∧ b = charCRC) ∨
        (fn &&& ModemFnG ≠ 0 ∧ b = charG) then
      some (b, rest, [])
    else
      (waitWorkMode fn rest).map fun o => (o.1, o.2.1, b :: o.2.2)

/-! ## Sender: YMODEM batch tail (port.go `sendList` lines 385-390) -/

/-- The payload passed to the final `sendPack(0, ..., workMode)` of
`sendList`: Go writes `make([]byte, 0, 128)`, a slice of length 0
(capacity 128), so the payload carries no bytes. -/
def sendListFinalPayload : List Nat := []

/-- The final packet-0 frame `sendList` transmits after the last file. -/
def sendListFinalFrame (workMode : Nat) : List Nat :=
  sendPackFrame 0 sendListFinalPayload workMode

/-! ## Receiver: packet reception (port.go `receivePack` lines 474-528) -/

structure RecvPackOut where
  err : Option GoErr   -- `some GoErr.eof` models the Go `([]byte{}, io.EOF)` reply to EOT
  data : List Nat      -- the payload returned to the caller
  rest : List Nat      -- transport bytes left unconsumed
  written : List Nat   -- ACK/NAK bytes written back to the transport
  term : List Nat      -- bytes forwarded to the terminal reader
deriving DecidableEq, Repr

/-- The validation part of `receivePack` once a SOH/STX header has been
seen and `n + bn` bytes have been read into `buf` (`n` = 3 in plain mode,
4 in CRC/G mode; `bn` the payload size the code computed).  Mirrors the
source exactly: a failed index or integrity check writes `NAK` (non-G) or
returns `GModeWithWrong` (G), and — as in the source, which has no
`continue` after the `NAK` writes — execution then falls through to the
`ACK` write and the `return buf[2 : 2+bn]`. -/
def receivePackBody (index workMode : Nat) (buf : List Nat) (bn : Nat)
    (rest : List Nat) : RecvPackOut :=
  let idxBad := (buf.getD 0 0) ^^^ (buf.getD 1 0) ≠ 0xff ∨ buf.getD 0 0 ≠ index
  let payload := (buf.drop 2).take bn
  if idxBad ∧ workMode = charG then ⟨some GoErr.gModeWithWrong, [], rest, [], []⟩
  else
    let w1 := if idxBad then [charNAK] else []
    if workMode = charNAK then
      let w2 := if (checksum payload).getD 0 0 ≠ buf.getD (2 + bn) 0 then [charNAK] else []
      ⟨none, payload, rest, w1 ++ w2 ++ [charACK], []⟩
    else
      let crc := crc16 payload
      let crcBad := crc.getD 0 0 ≠ buf.getD (2 + bn) 0 ∨ crc.getD 1 0 ≠ buf.getD (3 + bn) 0
      if crcBad ∧ workMode = charG then ⟨some GoErr.gModeWithWrong, [], rest, w1, []⟩
      else
        let w2 := if crcBad then [charNAK] else []
        let w3 := if workMode ≠ charG then [charACK] else []
        ⟨none, payload, rest, w1 ++ w2 ++ w3, []⟩

/-- `receivePack` over the inbound transport bytes.  Non-header bytes are
forwarded to the terminal; `EOT` returns `([], io.EOF)`; a SOH/STX header
is followed by the `n + bn`-byte body read, where the source computes
`bn := 128; if STX { bn += 1024 }`. -/
def receivePack (index workMode : Nat) : List Nat → RecvPackOut
  | [] => ⟨some GoErr.readErr, [], [], [], []⟩
  | b :: rest =>
    if b = charSOH ∨ b = charSTX then
      let bn := if b = charSTX then 128 + 1024 else 128
      let n := if workMode = charNAK then 2 + 1 else 2 + 2
      if n + bn ≤ rest.length then
        receivePackBody index workMode (rest.take (n + bn)) bn (rest.drop (n + bn))
      else ⟨some GoErr.readErr, [], [], [], []⟩
    else if b = charEOT then ⟨some GoErr.eof, [], rest, [], []⟩
    else
      let o := receivePack index workMode rest
      ⟨o.err, o.data, o.rest, o.written, b :: o.term⟩

/-! ## Receiver: metadata parsing (port.go `parseFileInfo` lines 530-550) -/

/-- `bytes.Buffer.ReadBytes(0)`: the prefix up to and including the first
NUL byte; `none` when the buffer holds no NUL (Go then reports io.EOF and
`parseFileInfo` returns that error). -/
def readBytesNul : List Nat → Option (List Nat)
  | [] => none
  | 0 :: _ => some [0]
  | b :: rest => (readBytesNul rest).map fun l => b :: l

def isSpaceByte (b : Nat) : Bool := b = 32 ∨ (9 ≤ b ∧ b ≤ 13)

def isDigitIn (base b : Nat) : Bool := 48 ≤ b ∧ b < 48 + min base 10

/-- Longest prefix of digits of the given base. -/
def takeDigits (base : Nat) : List Nat → List Nat × List Nat
  | [] => ([], [])
  | b :: rest =>
    if isDigitIn base b then
      let o := takeDigits base rest
      (b :: o.1, o.2)
    else ([], b :: rest)

def digitsVal (base : Nat) (ds : List Nat) : Nat :=
  ds.foldl (fun a d => a * base + (d - 48)) 0

/-- One `fmt.Sscanf` verb (`%d` with base 10, `%o` with base 8): skip
whitespace, optionally a minus sign when the destination is signed, then
at least one digit. -/
def scanNum (base : Nat) (signed : Bool) (s : List Nat) : Option (Int × List Nat) :=
  let s1 := s.dropWhile fun b => isSpaceByte b
  match s1 with
  | 45 :: rest =>
    if signed then
      match takeDigits base rest with
      | ([], _) => none
      | (ds, r) => some (-(digitsVal base ds : Int), r)
    else none
  | _ =>
    match takeDigits base s1 with
    | ([], _) => none
    | (ds, r) => some ((digitsVal base ds : Int), r)

structure GoFile where
  path : List Nat   -- the bytes of `File.Path` (Go keeps the NUL delimiter in it)
  length : Int
  modTime : Int
  mode : Nat
deriving DecidableEq, Repr

def fsModePerm : Nat := 0o777

/-- Go `parseFileInfo`.  `line` is `ReadBytes(0)`'s result (delimiter
included); the tail scanned with `"%d%o%o"` is `buf[len(line)+1:]`, as in
the source.  When the scan fails the pre-initialised defaults
(`Length: 0`, `ModTime: Unix(0,0)`, `Mode: ModePerm`) survive, except
that a `%d` that succeeded before a later verb failed has already written
through its pointer into `Length`. -/
def parseFileInfo (buf : List Nat) : Except GoErr GoFile :=
  match readBytesNul buf with
  | none => Except.error GoErr.parseErr
  | some line =>
    let tail := buf.drop (line.length + 1)
    match scanNum 10 true tail with
    | none => Except.ok ⟨line, 0, 0, fsModePerm⟩
    | some (len, r1) =>
      match scanNum 8 true r1 with
      | none => Except.ok ⟨line, len, 0, fsModePerm⟩
      | some (mt, r2) =>
        match scanNum 8 false r2 with
        | none => Except.ok ⟨line, len, 0, fsModePerm⟩
        | some (md, _) => Except.ok ⟨line, len, mt, md.toNat &&& fsModePerm⟩

/-! ## Receiver: body loop (port.go `receive` lines 582-606) -/

/-- The truncation applied to each received payload:
`if file.Length > 0 && int64(len(data)) > file.Length-writed
 { data = data[:file.Length-writed] }`. -/
def truncatePayload (length writed : Int) (data : List Nat) : List Nat :=
  if 0 < length ∧ length - writed < (data.length : Int) then
    data.take (length - writed).toNat
  else data

/-- The body-reception loop of `receive`: repeated `receivePack` with the
running index, truncation against the declared length, delivery to the
body pipe, terminated by the `io.EOF` that `receivePack` returns for
`EOT` (answered with a final `ACK`).  The `fuel` argument bounds the
number of iterations; any `fuel` larger than the iterations actually
needed yields the loop's true outcome, and exhaustion is reported as the
transport-read failure. -/
def receiveBodyGo (workMode : Nat) (length : Int) :
    Nat → Nat → Int → List Nat →
    Except GoErr (List (List Nat) × List Nat × List Nat × List Nat)
  | 0, _, _, _ => Except.error GoErr.readErr
  | fuel + 1, index, writed, input =>
    let o := receivePack index workMode input
    match o.err with
    | some GoErr.eof =>
      let d := truncatePayload length writed o.data
      Except.ok ([d], o.rest, o.written ++ [charACK], o.term)
    | some e => Except.error e
    | none =>
      let d := truncatePayload length writed o.data
      match receiveBodyGo workMode length fuel (index + 1)
          (writed + d.length) o.rest with
      | Except.error e => Except.error e
      | Except.ok (ds, rest, w, t) =>
        Except.ok (d :: ds, rest, o.written ++ w, o.term ++ t)

structure RecvFileOut where
  file : GoFile
  delivered : List (List Nat)
  rest : List Nat
  written : List Nat
  term : List Nat
deriving DecidableEq, Repr

/-- One iteration of `receive`'s outer per-file loop, after `tryWorkMode`
has negotiated `workMode`: in batch mode, `receivePack(0, ...)` then
`parseFileInfo`, then — unconditionally, the source has no end-of-batch
test — the body loop starting at index 1; in non-batch mode the body loop
runs for the zero-valued `&File{}`. -/
def receiveOneFile (batch : Bool) (workMode : Nat) (input : List Nat)
    (fuel : Nat) : Except GoErr RecvFileOut :=
  if batch then
    let o := receivePack 0 workMode input
    match o.err with
    | some e => Except.error e
    | none =>
      match parseFileInfo o.data with
      | Except.error e => Except.error e
      | Except.ok f =>
        match receiveBodyGo workMode f.length fuel 1 0 o.rest with
        | Except.error e => Except.error e
        | Except.ok (ds, rest, w, t) =>
          Except.ok ⟨f, ds, rest, o.written ++ w, o.term ++ t⟩
  else
    match receiveBodyGo workMode 0 fuel 1 0 input with
    | Except.error e => Except.error e
    | Except.ok (ds, rest, w, t) => Except.ok ⟨⟨[], 0, 0, 0⟩, ds, rest, w, t⟩

/-- Propositional equality on `Except` results is decidable (used to
evaluate the embedded functions at concrete inputs). -/
instance {e a : Type} [DecidableEq e] [DecidableEq a] : DecidableEq (Except e a) := fun x y =>
  match x, y with
  | Except.error u, Except.error v =>
    if h : u = v then Decidable.isTrue (by rw [h])
    else Decidable.isFalse (fun hh => h (Except.error.inj hh))
  | Except.error _, Except.ok _ => Decidable.isFalse (fun hh => Except.noConfusion hh)
  | Except.ok _, Except.error _ => Decidable.isFalse (fun hh => Except.noConfusion hh)
  | Except.ok u, Except.ok v =>
    if h : u = v then Decidable.isTrue (by rw [h])
    else Decidable.isFalse (fun hh => h (Except.ok.inj hh))

/-! ## Sanity checks of the codec embedding (spec §8, items 2 and 3) -/

set_option maxRecDepth 4000 in
theorem crc16_test_vector : crc16 [49, 50, 51, 52, 53, 54, 55, 56, 57] = [0x31, 0xC3] := by
  decide

theorem crcByte_zero : crcByte 0 0 = 0 := by decide

theorem crc16_zeros (n : Nat) : crc16 (List.replicate n 0) = [0, 0] := by
  have h : ∀ m, List.foldl crcByte 0 (List.replicate m 0) = 0 := by
    intro m
    induction m with
    | zero => rfl
    | succ m ih => rw [List.replicate_succ, List.foldl_cons, crcByte_zero]; exact ih
  simp [crc16, h n]

theorem checksum_test_vector : checksum [49, 50, 51, 52, 53, 54, 55, 56, 57] = [0xDD] := by
  decide

/-! ## Helper lemmas -/

theorem frame_drop_trailer (a b c : Nat) (data t : List Nat) :
    ([a, b, c] ++ data ++ t).drop (3 + data.length) = t := by
  apply List.drop_left'
  simp
  omega

/-! ## Claim theorems -/

/-- Claim C5 (counterexample): the claim predicts that `YModemConfig 0`
has only the `BATCH` feature set; the code also forces `ONE_K`, `CRC` and
`DOUBLE_CAN` on (`ModemYMin = ModemXMax | ModemFnBatch = 15`). -/
theorem ymodem_config_forces_features_cex :
    (YModemConfig 0).fn ≠ 0 ||| ModemFnBatch := by decide

/-- Claim C5 (amended): `XModemConfig` preserves `ONE_K`, `CRC` and
`DOUBLE_CAN` and masks out `BATCH` and `G`; `YModemConfig` forces
`ONE_K`, `CRC`, `DOUBLE_CAN` and `BATCH` all on and preserves only `G`
as given. -/
theorem config_feature_normalization (fn : Nat) :
    (XModemConfig fn).fn.testBit 0 = fn.testBit 0 ∧
    (XModemConfig fn).fn.testBit 1 = fn.testBit 1 ∧
    (XModemConfig fn).fn.testBit 2 = fn.testBit 2 ∧
    (XModemConfig fn).fn.testBit 3 = false ∧
    (XModemConfig fn).fn.testBit 4 = false ∧
    (YModemConfig fn).fn.testBit 0 = true ∧
    (YModemConfig fn).fn.testBit 1 = true ∧
    (YModemConfig fn).fn.testBit 2 = true ∧
    (YModemConfig fn).fn.testBit 3 = true ∧
    (YModemConfig fn).fn.testBit 4 = fn.testBit 4 := by
  refine ⟨?_, ?_, ?_, ?_, ?_, ?_, ?_, ?_, ?_, ?_⟩ <;>
    simp [XModemConfig, YModemConfig, ModemXMax, ModemXMin, ModemYMax, ModemYMin,
      ModemFn1k, ModemFnCRC, ModemFnCANCAN, ModemFnBatch, ModemFnG,
      Nat.testBit_or, Nat.testBit_and,
      (by decide : Nat.testBit 7 0 = true), (by decide : Nat.testBit 7 1 = true),
      (by decide : Nat.testBit 7 2 = true), (by decide : Nat.testBit 7 3 = false),
      (by decide : Nat.testBit 7 4 = false),
      (by decide : Nat.testBit 31 0 = true), (by decide : Nat.testBit 31 1 = true),
      (by decide : Nat.testBit 31 2 = true), (by decide : Nat.testBit 31 3 = true),
      (by decide : Nat.testBit 31 4 = true),
      (by decide : Nat.testBit 15 0 = true), (by decide : Nat.testBit 15 1 = true),
      (by decide : Nat.testBit 15 2 = true), (by decide : Nat.testBit 15 3 = true),
      (by decide : Nat.testBit 15 4 = false)]

/-- Claim C6 (code bug): `SendBytes` suppresses the break for `IOCan`
(`err != io.EOF && err != TooLongFileInfo && err != IOCan`) but
`SendList`'s condition omits the `IOCan` exclusion, so a batch send that
fails with `IOCan` still sends a break — against the stated policy that
no break answers a peer abort. -/
theorem sendList_break_on_ioCan :
    sendBytesBreakCondition (some GoErr.ioCan) = false ∧
    sendListBreakCondition (some GoErr.ioCan) = true := by decide

/-- Claim C4 (code bug): the final packet-0 of `sendList` is built from
`make([]byte, 0, 128)`, a length-0 slice, so the emitted frame is just
header, index, complement and trailer — it carries no 128-byte all-zero
payload.  With work mode `C` the whole frame is the five bytes
`SOH 0 0xFF` followed by the CRC of the empty payload. -/
theorem sendList_final_packet_is_empty :
    sendListFinalFrame charCRC = [charSOH, 0, 0xff, 0, 0] ∧
    sendListFinalPayload.length = 0 := by decide

/-- Claim C9: every frame `sendPack` builds for a 128- or 1024-byte
payload has header `SOH` iff the payload is 128 bytes and `STX` iff 1024,
carries `index XOR 0xFF` as its third byte, and ends in
`checksum(payload)` in plain (`NAK`) mode and `crc16(payload)` in `C`/`G`
mode. -/
theorem sendPack_frame_form (index : Nat) (data : List Nat) (mode : Nat)
    (h : data.length = 128 ∨ data.length = 1024) :
    ((sendPackFrame index data mode).head? = some charSOH ↔ data.length = 128) ∧
    ((sendPackFrame index data mode).head? = some charSTX ↔ data.length = 1024) ∧
    (sendPackFrame index data mode).getD 2 0 = index ^^^ 0xff ∧
    (mode = charNAK →
      (sendPackFrame index data mode).drop (3 + data.length) = checksum data) ∧
    (mode = charCRC ∨ mode = charG →
      (sendPackFrame index data mode).drop (3 + data.length) = crc16 data) := by
  refine ⟨?_, ?_, ?_, ?_, ?_⟩
  · rcases h with h | h <;> simp [sendPackFrame, h, charSOH, charSTX]
  · rcases h with h | h <;> simp [sendPackFrame, h, charSOH, charSTX]
  · simp [sendPackFrame, List.getD]
  · intro hm
    have hne : ¬(mode = charCRC ∨ mode = charG) := by
      rw [hm]; decide
    unfold sendPackFrame
    rw [if_neg hne]
    exact frame_drop_trailer _ _ _ data (checksum data)
  · intro hm
    unfold sendPackFrame
    rw [if_pos hm]
    exact frame_drop_trailer _ _ _ data (crc16 data)

/-- Claim C9 witness: the frame invariants at a concrete 128-byte
all-zero payload, index 1, plain mode. -/
theorem sendPack_frame_form_witness :
    ((sendPackFrame 1 (List.replicate 128 0) charNAK).head? = some charSOH ↔
      (List.replicate 128 (0 : Nat)).length = 128) ∧
    ((sendPackFrame 1 (List.replicate 128 0) charNAK).head? = some charSTX ↔
      (List.replicate 128 (0 : Nat)).length = 1024) ∧
    (sendPackFrame 1 (List.replicate 128 0) charNAK).getD 2 0 = 1 ^^^ 0xff ∧
    (charNAK = charNAK →
      (sendPackFrame 1 (List.replicate 128 0) charNAK).drop
          (3 + (List.replicate 128 (0 : Nat)).length) =
        checksum (List.replicate 128 0)) ∧
    (charNAK = charCRC ∨ charNAK = charG →
      (sendPackFrame 1 (List.replicate 128 0) charNAK).drop
          (3 + (List.replicate 128 (0 : Nat)).length) =
        crc16 (List.replicate 128 0)) :=
  sendPack_frame_form 1 (List.replicate 128 0) charNAK (Or.inl (by simp))

set_option maxRecDepth 20000 in
/-- Claim C1 (code bug): after a failed index/complement or integrity
check in a non-G mode, `receivePack` writes `NAK` but — lacking any
`continue` — falls through, writes `ACK` as well, and returns the bad
packet's payload to the caller.  First conjunct: expected index 1, index
byte 2 (complement consistent), checksum correct: the receiver emits
`NAK` then `ACK` and delivers the payload.  Second conjunct: correct
index but wrong checksum byte: again `NAK` then `ACK` and delivery.
Third conjunct: in G mode the same bad-index packet does fail with
`GModeWithWrong`, as the claim states. -/
theorem receivePack_bad_packet_still_acks :
    receivePack 1 charNAK (charSOH :: 2 :: 253 :: (List.replicate 128 0 ++ [0])) =
      ⟨none, List.replicate 128 0, [], [charNAK, charACK], []⟩ ∧
    receivePack 1 charNAK (charSOH :: 1 :: 254 :: (List.replicate 128 0 ++ [5])) =
      ⟨none, List.replicate 128 0, [], [charNAK, charACK], []⟩ ∧
    receivePack 1 charG (charSOH :: 2 :: 253 :: (List.replicate 128 0 ++ [0, 0])) =
      ⟨some GoErr.gModeWithWrong, [], [], [], []⟩ := by
  refine ⟨by decide, by decide, by decide⟩

set_option maxRecDepth 200000 in
/-- Claim C2 (code bug): for an `STX` header the source computes
`bn := 128; bn += 1024`, so it reads 1152 payload bytes (plus index,
complement and trailer) and delivers a 1152-byte payload, not the
1024 bytes the claim states; the `SOH` half of the claim (128 bytes)
holds.  The `rest` components show the exact read: one byte beyond the
consumed frame is left in the stream. -/
theorem receivePack_stx_payload_length :
    (receivePack 1 charNAK
        (charSOH :: 1 :: 254 :: (List.replicate 128 0 ++ [0, 99]))).data.length = 128 ∧
    (receivePack 1 charNAK
        (charSOH :: 1 :: 254 :: (List.replicate 128 0 ++ [0, 99]))).rest = [99] ∧
    (receivePack 1 charNAK
        (charSTX :: 1 :: 254 :: (List.replicate 1152 0 ++ [0, 99]))).data.length = 1152 ∧
    (receivePack 1 charNAK
        (charSTX :: 1 :: 254 :: (List.replicate 1152 0 ++ [0, 99]))).rest = [99] := by
  refine ⟨by decide, by decide, by decide, by decide⟩

/-- Claim C7 (counterexample): on the receiver side two consecutive `CAN`
bytes do not abort: `receivePack` forwards both to the terminal reader
and goes on to process the following byte (here an `EOT`, ending the file
normally), so the claim's "on either side of the transfer" fails. -/
theorem receiver_double_can_no_abort_cex :
    receivePack 1 charNAK [charCAN, charCAN, charEOT] =
      ⟨some GoErr.eof, [], [], [], [charCAN, charCAN]⟩ := by decide

/-- Claim C7 (amended): on the sender side (`sendPack`/`sendEOT` reply
loop) two consecutive `CAN` replies abort with `IOCan` after the second
frame write; the consecutive-CAN counter is irrelevant to (and reset by)
any non-CAN reply; the receiver never aborts on `CAN` — `receivePack`
forwards each `CAN` to the terminal and keeps waiting. -/
theorem can_handling (mode : Nat) (replies : List Nat) (count b : Nat)
    (hg : mode ≠ charG) (hb : b ≠ charCAN) :
    sendPackLoop mode (charCAN :: charCAN :: replies) count 0 =
      ⟨some GoErr.ioCan, 2, [], replies⟩ ∧
    (∀ can, sendPackLoop mode (b :: replies) count can =
      sendPackLoop mode (b :: replies) count 0) ∧
    (∀ index wm input, receivePack index wm (charCAN :: input) =
      ⟨(receivePack index wm input).err, (receivePack index wm input).data,
        (receivePack index wm input).rest, (receivePack index wm input).written,
        charCAN :: (receivePack index wm input).term⟩) := by
  refine ⟨?_, ?_, ?_⟩
  · simp [sendPackLoop, hg]
  · intro can
    simp [sendPackLoop, hg, hb]
  · intro index wm input
    simp [receivePack, charCAN, charSOH, charSTX, charEOT]

/-- Claim C7 witness: the amended behaviour at mode `NAK`, no further
replies, a non-CAN byte `ACK`. -/
theorem can_handling_witness :
    sendPackLoop charNAK [charCAN, charCAN] 0 0 =
      ⟨some GoErr.ioCan, 2, [], []⟩ :=
  (can_handling charNAK [] 0 charACK (by decide) (by decide)).1

/-- Claim C8: `sendBuffer` with no declared maximum size.  If the source
is exhausted with zero bytes pending, only `EOT` is sent (no empty
packet); if it is exhausted mid-packet the remainder is padded with `SUB`
and the packet is downgraded to 128 bytes when its data portion is at
most 128 bytes, followed by `EOT`; a source holding exactly one full
packet yields that packet and then `EOT` directly. -/
theorem sendBuffer_end_of_input (oneK : Bool) (file : List Nat) (total : Int)
    (index : Nat) :
    (file = [] → sendBufferGo oneK 0 file total index = Except.ok [SendEvent.eot]) ∧
    (0 < file.length → file.length < packSize oneK →
      sendBufferGo oneK 0 file total index =
        Except.ok [SendEvent.pack (index % 256)
            (file ++ List.replicate
              ((if file.length ≤ 128 then 128 else packSize oneK) - file.length)
              charSUB),
          SendEvent.eot]) ∧
    (file.length = packSize oneK →
      sendBufferGo oneK 0 file total index =
        Except.ok [SendEvent.pack (index % 256) file, SendEvent.eot]) := by
  refine ⟨?_, ?_, ?_⟩
  · intro h
    subst h
    simp [sendBufferGo]
  · intro h1 h2
    cases file with
    | nil => simp at h1
    | cons b rest =>
      have hmin : min (packSize oneK) (b :: rest).length = (b :: rest).length :=
        Nat.min_eq_right (Nat.le_of_lt h2)
      simp only [sendBufferGo, hmin]
      rw [if_neg (by simp), if_pos h2]
      simp [List.take_length]
  · intro h
    cases file with
    | nil =>
      exfalso
      cases oneK <;> simp [packSize] at h
    | cons b rest =>
      have hmin : min (packSize oneK) (b :: rest).length = packSize oneK :=
        Nat.min_eq_left (le_of_eq h.symm)
      simp only [sendBufferGo, hmin]
      rw [if_neg (by simp), if_neg (lt_irrefl _)]
      rw [← h, List.drop_length, List.take_length]
      simp [sendBufferGo]

/-- Claim C8 witness: a 3-byte source in 128-byte mode emits one packet
padded with 125 `SUB` bytes, then `EOT`; the empty source emits only
`EOT`. -/
theorem sendBuffer_end_of_input_witness :
    sendBufferGo false 0 [9, 9, 9] 0 1 =
      Except.ok [SendEvent.pack (1 % 256)
          ([9, 9, 9] ++ List.replicate
            ((if ([9, 9, 9] : List Nat).length ≤ 128 then 128 else packSize false) -
              ([9, 9, 9] : List Nat).length) charSUB),
        SendEvent.eot] ∧
    sendBufferGo false 0 [] 0 1 = Except.ok [SendEvent.eot] :=
  ⟨(sendBuffer_end_of_input false [9, 9, 9] 0 1).2.1 (by decide) (by decide),
    (sendBuffer_end_of_input false [] 0 1).1 rfl⟩

/-- Each delivered payload never takes the running total past the
declared length: the truncation `data[:file.Length-writed]` bounds the
new total by `length`. -/
theorem truncatePayload_length_le (L w : Int) (d : List Nat) (hL : 0 < L)
    (hw : w ≤ L) : w + ((truncatePayload L w d).length : Int) ≤ L := by
  unfold truncatePayload
  split
  · next hcond =>
    obtain ⟨-, hlt⟩ := hcond
    have h0 : 0 ≤ L - w := by omega
    have h1 : min (L - w).toNat d.length ≤ (L - w).toNat := Nat.min_le_left _ _
    have h2 : ((min (L - w).toNat d.length : Nat) : Int) ≤ ((L - w).toNat : Int) :=
      Int.ofNat_le.mpr h1
    rw [Int.toNat_of_nonneg h0] at h2
    simp only [List.length_take]
    omega
  · next hcond =>
    have : ¬(L - w < (d.length : Int)) := fun hlt => hcond ⟨hL, hlt⟩
    omega

/-- Claim C10: for a declared length `L > 0`, the body-reception loop of
`receive` delivers at most `L` bytes in total: starting from any running
total `w ≤ L`, a successful run of `receiveBodyGo` has
`w + (total delivered) ≤ L`. -/
theorem receive_body_truncation_bound (L : Int) (wm : Nat) (fuel : Nat) :
    ∀ (index : Nat) (w : Int) (input : List Nat) (ds : List (List Nat))
      (rest wr tf : List Nat), 0 < L → w ≤ L →
      receiveBodyGo wm L fuel index w input = Except.ok (ds, rest, wr, tf) →
      w + (ds.map fun d => (d.length : Int)).sum ≤ L := by
  induction fuel with
  | zero =>
    intro index w input ds rest wr tf hL hw h
    simp [receiveBodyGo] at h
  | succ fuel ih =>
    intro index w input ds rest wr tf hL hw h
    simp only [receiveBodyGo] at h
    split at h
    · next heq =>
      simp only [Except.ok.injEq, Prod.mk.injEq] at h
      obtain ⟨hds, -, -, -⟩ := h
      subst hds
      simp only [List.map_cons, List.map_nil, List.sum_cons, List.sum_nil, add_zero]
      exact truncatePayload_length_le L w _ hL hw
    · next e heq hne => exact absurd h (by simp)
    · next heq =>
      split at h
      · exact absurd h (by simp)
      · next ds' rest' w' t' heq2 =>
        simp only [Except.ok.injEq, Prod.mk.injEq] at h
        obtain ⟨hds, -, -, -⟩ := h
        subst hds
        have hstep := truncatePayload_length_le L w
          (receivePack index wm input).data hL hw
        have := ih (index + 1)
          (w + ((truncatePayload L w (receivePack index wm input).data).length : Int))
          (receivePack index wm input).rest ds' rest' w' t' hL hstep heq2
        simp only [List.map_cons, List.sum_cons]
        omega

set_option maxRecDepth 20000 in
/-- Claim C10 witness: declared length 5, one 128-byte packet then `EOT`:
the run delivers the 5-byte prefix and then nothing. -/
theorem receive_body_truncation_bound_witness :
    (0 : Int) + (([List.replicate 5 0, []].map fun d => ((d : List Nat).length : Int)).sum) ≤ 5 :=
  receive_body_truncation_bound 5 charNAK 2 1 0
    (charSOH :: 1 :: 254 :: (List.replicate 128 0 ++ [0]) ++ [charEOT])
    [List.replicate 5 0, []] [] [charACK, charACK] []
    (by decide) (by decide) (by decide)

set_option maxRecDepth 20000 in
/-- Claim C3 (code bug): `receive` has no end-of-batch test.  An all-zero
metadata packet-0 parses as a file whose path is the single NUL byte
(with the default length 0 and mode 0o777), and the receiver then
unconditionally enters the body-reception loop — here failing on the
exhausted stream — instead of returning success to the caller. -/
theorem receive_no_end_of_batch_check :
    parseFileInfo (List.replicate 128 0) = Except.ok ⟨[0], 0, 0, fsModePerm⟩ ∧
    receiveOneFile true charNAK
        (charSOH :: 0 :: 255 :: (List.replicate 128 0 ++ [0])) 1 =
      Except.error GoErr.readErr := by
  refine ⟨by decide, by decide⟩

end XModemGo
